import Mathlib

/-
Verification of the Orchflow protocol-engine client
(src/examples/ai-integration.py, class OrchflowClient).

The client multiplexes request/response calls and push events over one
duplex connection.  We shallowly embed the state of one OrchflowClient
instance and the code of its operations:

  - the listener coroutine body (one iteration of the async-for loop in
    OrchflowClient._listen) becomes listenStep, and the whole loop over a
    finite stream of frames becomes runListen;
  - OrchflowClient.execute is split into its pre-await phase (mutate
    request_id, register the future, build and send the frame:
    executeSend) and its post-resolution phase (inspect the response
    dict: executeFinish);
  - OrchflowClient.on_event and OrchflowClient.subscribe become on_event
    and subscribe.

Python dictionaries are modelled as association lists with the update
discipline of a dict (assignment replaces the binding of an existing key,
otherwise appends).  asyncio futures are modelled by FutureState: a
future is pending or holds the response dict written by set_result; a
second set_result on a done future raises InvalidStateError, which in
the source is unhandled inside the listener loop.
-/

namespace Orchflow

/-- JSON-like values: the payloads, params and results carried in frames. -/
inductive Val : Type where
  | null : Val
  | str : String → Val
  | num : Int → Val
  | boolean : Bool → Val
  | arr : List Val → Val
  | obj : List (String × Val) → Val


/-- The remote error object of an error response: the value of the key
named error, carrying code and message. -/
structure ErrInfo : Type where
  code : Int
  message : String


/-- The object under the key named event of an inbound event frame: the
source reads its field named type and hands the whole object to every
handler. -/
structure EventData : Type where
  etype : String
  payload : Val


/-- A decoded inbound frame, recording exactly the keys the source
inspects: id (for response routing), result and error (read by execute
after resolution), event (for dispatch).  Absent keys are none. -/
structure InData : Type where
  id? : Option Nat
  result? : Option Val
  error? : Option ErrInfo
  event? : Option EventData


/-- One raw frame off the wire: either the text fails json.loads
(malformed) or it decodes to an InData. -/
inductive Frame : Type where
  | malformed : Frame
  | decoded : InData → Frame


/-- A registered event handler.  hid identifies it; raises records
whether invoking it raises an exception (the behaviour relevant to
isolation claims). -/
structure Handler : Type where
  hid : Nat
  raises : Bool


/-- The state of one asyncio future stored in pending_requests: pending,
or done holding the response dict written by set_result. -/
inductive FutureState : Type where
  | pending : FutureState
  | done : InData → FutureState


/-- Exceptions the embedded code can raise. -/
inductive PyErr : Type where
  | jsonDecodeError : PyErr
  | invalidStateError : PyErr
  | attributeError : PyErr


/-- Dictionary lookup on an association list (Python membership test and
subscript read). -/
def alistGet {κ α : Type} [DecidableEq κ] : List (κ × α) → κ → Option α
  | [], _ => none
  | (k, w) :: rest, n => if k = n then some w else alistGet rest n

/-- Dictionary assignment on an association list: replace the binding of
an existing key, otherwise append the new binding. -/
def alistSet {κ α : Type} [DecidableEq κ] : List (κ × α) → κ → α → List (κ × α)
  | [], n, v => [(n, v)]
  | (k, w) :: rest, n, v =>
      if k = n then (n, v) :: rest else (k, w) :: alistSet rest n v

/-- The mutable state of one OrchflowClient: the websocket handle
(wsConnected is false while self.ws is None), the id counter
self.request_id, the future table self.pending_requests, and the handler
table self.event_handlers. -/
structure ClientState : Type where
  wsConnected : Bool
  request_id : Nat
  pending_requests : List (Nat × FutureState)
  event_handlers : List (String × List Handler)


/-- The state of a freshly constructed OrchflowClient. -/
def initState : ClientState :=
  { wsConnected := false, request_id := 0,
    pending_requests := [], event_handlers := [] }

/-- OrchflowClient.connect: sets self.ws (and starts the listener). -/
def connect (s : ClientState) : ClientState :=
  { s with wsConnected := true }

/-- Result of one iteration of the listener loop: continue with a new
state and the handler tasks spawned by this frame, or crash with an
unhandled exception (which terminates the listener coroutine). -/
inductive StepOut : Type where
  | next : ClientState → List (Handler × EventData) → StepOut
  | crashed : ClientState → PyErr → StepOut


/-- One iteration of the async-for body of OrchflowClient._listen on one
frame.  json.loads failure raises (there is no try block in the loop).
If the dict has the key named id, the matching pending future is
resolved via set_result; an id absent from pending_requests falls
through silently; set_result on an already done future raises
InvalidStateError.  Otherwise, if the dict has the key named event, one
task per registered handler for its type is spawned, in list order; a
type with no entry dispatches nothing.  A dict with neither key falls
through silently. -/
def listenStep (s : ClientState) (f : Frame) : StepOut :=
  match f with
  | .malformed => .crashed s .jsonDecodeError
  | .decoded d =>
    match d.id? with
    | some n =>
      match alistGet s.pending_requests n with
      | some .pending =>
          .next { s with
                    pending_requests :=
                      alistSet s.pending_requests n (.done d) } []
      | some (.done _) => .crashed s .invalidStateError
      | none => .next s []
    | none =>
      match d.event? with
      | some ev =>
        match alistGet s.event_handlers ev.etype with
        | some hs => .next s (hs.map (fun h => (h, ev)))
        | none => .next s []
      | none => .next s []

/-- Outcome of running the listener over a finite stream of frames:
final state, every handler task spawned (in spawn order), the unhandled
exception if the loop crashed, and the frames left unprocessed by a
crash. -/
structure ListenOutcome : Type where
  final : ClientState
  spawned : List (Handler × EventData)
  crash : Option PyErr
  unprocessed : List Frame


/-- OrchflowClient._listen over a finite stream of frames.  The stream
ending models the connection closing: the async-for terminates and the
coroutine returns, performing no further action. -/
def runListen : ClientState → List Frame → ListenOutcome
  | s, [] => { final := s, spawned := [], crash := none, unprocessed := [] }
  | s, f :: rest =>
    match listenStep s f with
    | .next s1 sp =>
      let o := runListen s1 rest
      { final := o.final, spawned := sp ++ o.spawned,
        crash := o.crash, unprocessed := o.unprocessed }
    | .crashed s1 e =>
      { final := s1, spawned := [], crash := some e, unprocessed := rest }

/-- What happens to the client state when the connection drops and the
listener loop ends: OrchflowClient._listen simply returns when the
async-for is exhausted, with no except or finally clause and no sweep of
pending_requests, so the state is untouched. -/
def onConnectionClosed (s : ClientState) : ClientState := s

/-- Outcome of one spawned handler task. -/
inductive TaskOutcome : Type where
  | ok : TaskOutcome
  | handlerError : TaskOutcome


/-- Running one spawned handler task: an exception inside the handler
stays inside that task (asyncio create_task), yielding handlerError. -/
def runHandlerTask (h : Handler) : TaskOutcome :=
  if h.raises then .handlerError else .ok

/-- An outgoing frame as built by execute and subscribe before
json.dumps. -/
structure OutFrame : Type where
  jsonrpc : String
  method : String
  params : Val
  id? : Option Nat


/-- Result of the pre-await phase of execute: the frame built, the
client state after the mutations, and the send failure if any. -/
structure ExecSend : Type where
  frame : OutFrame
  state : ClientState
  sendErr : Option PyErr


/-- The pre-await phase of OrchflowClient.execute, in source order:
increment self.request_id, build the request dict with the new id,
create a fresh future and store it in pending_requests under the new id,
then send.  self.ws.send raises AttributeError when self.ws is still
None (execute before connect); the mutations are not rolled back. -/
def executeSend (s : ClientState) (action : Val) : ExecSend :=
  let newId := s.request_id + 1
  let req : OutFrame :=
    { jsonrpc := "2.0", method := "execute",
      params := Val.obj [("action", action)], id? := some newId }
  let s1 : ClientState :=
    { s with request_id := newId,
             pending_requests := alistSet s.pending_requests newId .pending }
  { frame := req, state := s1,
    sendErr := if s1.wsConnected then none else some .attributeError }

/-- The post-resolution phase of OrchflowClient.execute: the awaited
future has been resolved with the response dict d.  If d has the key
named error, execute raises carrying the remote error object; otherwise
it returns the value of the key named result (None when absent). -/
def executeFinish (d : InData) : Except ErrInfo (Option Val) :=
  match d.error? with
  | some e => .error e
  | none => .ok d.result?

/-- The frame built by OrchflowClient.subscribe: method subscribe,
params holding the event-type list, and no id key at all. -/
def subscribeFrame (events : List String) : OutFrame :=
  { jsonrpc := "2.0", method := "subscribe",
    params := Val.obj [("events", Val.arr (events.map Val.str))],
    id? := none }

/-- OrchflowClient.subscribe: builds the frame and sends it.  It touches
neither request_id nor pending_requests and awaits no response, so the
client state is returned unchanged. -/
def subscribe (s : ClientState) (events : List String) :
    OutFrame × ClientState :=
  (subscribeFrame events, s)

/-- OrchflowClient.on_event applied to one handler (the decorator body):
create the empty list for a previously unseen type, then append the
handler. -/
def on_event (s : ClientState) (etype : String) (h : Handler) :
    ClientState :=
  { s with
      event_handlers :=
        alistSet s.event_handlers etype
          (((alistGet s.event_handlers etype).getD []) ++ [h]) }

/-- The InData of a pure inbound event frame: only the event key is
present. -/
def eventData (ev : EventData) : InData :=
  { id? := none, result? := none, error? := none, event? := some ev }

/-- The per-connection correlation-id bookkeeping invariant: every id in
the future table is at most the counter, and no id occurs twice. -/
def idInvariant (s : ClientState) : Prop :=
  (∀ k ∈ s.pending_requests.map Prod.fst, k ≤ s.request_id) ∧
  (s.pending_requests.map Prod.fst).Nodup

instance (s : ClientState) : Decidable (idInvariant s) := by
  unfold idInvariant
  infer_instance

theorem alistGet_set_self {κ α : Type} [DecidableEq κ]
    (l : List (κ × α)) (k : κ) (v : α) :
    alistGet (alistSet l k v) k = some v := by
  induction l with
  | nil => simp [alistGet, alistSet]
  | cons p rest ih =>
    obtain ⟨a, b⟩ := p
    by_cases hak : a = k
    · simp [alistGet, alistSet, hak]
    · simp [alistGet, alistSet, hak, ih]

theorem alistGet_set_ne {κ α : Type} [DecidableEq κ]
    (l : List (κ × α)) (k m : κ) (v : α) (h : k ≠ m) :
    alistGet (alistSet l k v) m = alistGet l m := by
  induction l with
  | nil => simp [alistGet, alistSet, h]
  | cons p rest ih =>
    obtain ⟨a, b⟩ := p
    by_cases hak : a = k
    · subst hak
      simp [alistGet, alistSet, h]
    · simp [alistGet, alistSet, hak, ih]

theorem alistGet_eq_none_iff {κ α : Type} [DecidableEq κ]
    (l : List (κ × α)) (k : κ) :
    alistGet l k = none ↔ k ∉ l.map Prod.fst := by
  induction l with
  | nil => simp [alistGet]
  | cons p rest ih =>
    obtain ⟨a, b⟩ := p
    by_cases hak : a = k
    · simp [alistGet, hak]
    · simp [alistGet, hak, ih, Ne.symm hak]

theorem alistSet_keys_of_mem {κ α : Type} [DecidableEq κ]
    (l : List (κ × α)) (k : κ) (v : α) (h : k ∈ l.map Prod.fst) :
    (alistSet l k v).map Prod.fst = l.map Prod.fst := by
  induction l with
  | nil => simp at h
  | cons p rest ih =>
    obtain ⟨a, b⟩ := p
    by_cases hak : a = k
    · simp [alistSet, hak]
    · simp only [List.map_cons, List.mem_cons] at h
      rcases h with h | h

      · exact absurd h.symm hak
      · simp [alistSet, hak, ih h]

theorem alistSet_keys_of_not_mem {κ α : Type} [DecidableEq κ]
    (l : List (κ × α)) (k : κ) (v : α) (h : k ∉ l.map Prod.fst) :
    (alistSet l k v).map Prod.fst = l.map Prod.fst ++ [k] := by
  induction l with
  | nil => simp [alistSet]
  | cons p rest ih =>
    obtain ⟨a, b⟩ := p
    simp only [List.map_cons, List.mem_cons] at h
    push_neg at h
    simp [alistSet, Ne.symm h.1, ih h.2]

/-- Concrete scenario for the correlation witness: calls 1 and 2
outstanding. -/
def c1State : ClientState :=
  { wsConnected := true, request_id := 2,
    pending_requests := [(1, FutureState.pending), (2, FutureState.pending)],
    event_handlers := [] }

/-- Concrete response frame for call 1. -/
def c1RespA : InData :=
  { id? := some 1, result? := some (Val.num 10),
    error? := none, event? := none }

/-- Concrete response frame for call 2. -/
def c1RespB : InData :=
  { id? := some 2, result? := some (Val.num 20),
    error? := none, event? := none }

/-- C1: a response frame carrying correlation id n resolves exactly the
pending call issued with id n — that call becomes done with the frame
and every other entry of the table is untouched — and this is
independent of arrival order: delivering the response for id n2 first
and then the one for id n1 resolves both calls with their own frames
and the listener loop never crashes. -/
theorem response_resolves_exactly_matching_call :
    (∀ (s : ClientState) (d : InData) (n : Nat),
        d.id? = some n →
        alistGet s.pending_requests n = some FutureState.pending →
        listenStep s (Frame.decoded d) =
          StepOut.next
            { s with pending_requests :=
                alistSet s.pending_requests n (FutureState.done d) } [] ∧
        alistGet (alistSet s.pending_requests n (FutureState.done d)) n
          = some (FutureState.done d) ∧
        (∀ m, m ≠ n →
          alistGet (alistSet s.pending_requests n (FutureState.done d)) m
            = alistGet s.pending_requests m)) ∧
    (∀ (s : ClientState) (n1 n2 : Nat) (d1 d2 : InData),
        n1 ≠ n2 →
        d1.id? = some n1 → d2.id? = some n2 →
        alistGet s.pending_requests n1 = some FutureState.pending →
        alistGet s.pending_requests n2 = some FutureState.pending →
        (runListen s [Frame.decoded d2, Frame.decoded d1]).crash = none ∧
        alistGet (runListen s
            [Frame.decoded d2, Frame.decoded d1]).final.pending_requests n1
          = some (FutureState.done d1) ∧
        alistGet (runListen s
            [Frame.decoded d2, Frame.decoded d1]).final.pending_requests n2
          = some (FutureState.done d2)) := by
  constructor
  · intro s d n hid hp
    refine ⟨by simp [listenStep, hid, hp], alistGet_set_self _ _ _, ?_⟩
    intro m hm
    exact alistGet_set_ne _ _ _ _ (Ne.symm hm)
  · intro s n1 n2 d1 d2 hne h1 h2 hp1 hp2
    have hp1s : alistGet (alistSet s.pending_requests n2 (FutureState.done d2)) n1
        = some FutureState.pending := by
      rw [alistGet_set_ne _ _ _ _ (Ne.symm hne)]
      exact hp1
    have e2 : listenStep s (Frame.decoded d2) =
        StepOut.next
          { s with pending_requests :=
              alistSet s.pending_requests n2 (FutureState.done d2) } [] := by
      simp [listenStep, h2, hp2]
    have e1 : listenStep
        { s with pending_requests :=
            alistSet s.pending_requests n2 (FutureState.done d2) }
        (Frame.decoded d1) =
        StepOut.next
          { s with pending_requests := alistSet (alistSet s.pending_requests n2 (FutureState.done d2)) n1 (FutureState.done d1) } [] := by
      simp [listenStep, h1, hp1s]
    refine ⟨?_, ?_, ?_⟩
    · simp [runListen, e2, e1]
    · simp only [runListen, e2, e1]
      exact alistGet_set_self _ _ _
    · simp only [runListen, e2, e1]
      rw [alistGet_set_ne _ _ _ _ hne]
      exact alistGet_set_self _ _ _

/-- Witness for C1: with calls 1 and 2 outstanding, the responses arrive
out of order (id 2 first) and each call receives its own response. -/
theorem response_resolves_exactly_matching_call_witness :
    (runListen c1State
        [Frame.decoded c1RespB, Frame.decoded c1RespA]).crash = none ∧
    alistGet (runListen c1State
        [Frame.decoded c1RespB, Frame.decoded c1RespA]).final.pending_requests 1
      = some (FutureState.done c1RespA) ∧
    alistGet (runListen c1State
        [Frame.decoded c1RespB, Frame.decoded c1RespA]).final.pending_requests 2
      = some (FutureState.done c1RespB) :=
  response_resolves_exactly_matching_call.2 c1State 1 2 c1RespA c1RespB
    (by decide) rfl rfl rfl rfl

/-- C9: the subscribe frame is fire-and-forget: it carries no id key at
all, the method subscribe and the event list as params, and the call
leaves the client state — in particular request_id and the
pending_requests table — completely unchanged, awaiting nothing.  Every
execute frame carries the method execute, a params object wrapping the
action, and the freshly allocated integer id. -/
theorem subscribe_fire_and_forget_execute_correlated
    (s : ClientState) (events : List String) (action : Val) :
    (subscribe s events).1.id? = none ∧
    (subscribe s events).1.method = "subscribe" ∧
    (subscribe s events).1.params
      = Val.obj [("events", Val.arr (events.map Val.str))] ∧
    (subscribe s events).2 = s ∧
    (executeSend s action).frame.method = "execute" ∧
    (executeSend s action).frame.params = Val.obj [("action", action)] ∧
    (executeSend s action).frame.id? = some (s.request_id + 1) :=
  ⟨rfl, rfl, rfl, rfl, rfl, rfl, rfl⟩

/-- C10: execute mutates the client before sending — the id counter is
incremented and a pending future is registered under the new id — and
when the send then fails (here: execute before connect, so self.ws is
None and self.ws.send raises AttributeError) nothing is rolled back:
the resulting state keeps the consumed id and the registered pending
entry. -/
theorem execute_mutations_persist_on_send_failure
    (s : ClientState) (action : Val) (h : s.wsConnected = false) :
    (executeSend s action).sendErr = some PyErr.attributeError ∧
    (executeSend s action).state.request_id = s.request_id + 1 ∧
    alistGet (executeSend s action).state.pending_requests (s.request_id + 1)
      = some FutureState.pending := by
  refine ⟨?_, rfl, alistGet_set_self _ _ _⟩
  simp [executeSend, h]

/-- Witness for C10: a fresh, never-connected client issues a call; the
send fails but id 1 is consumed and its pending entry remains. -/
theorem execute_mutations_persist_on_send_failure_witness :
    (executeSend initState Val.null).sendErr = some PyErr.attributeError ∧
    (executeSend initState Val.null).state.request_id = 0 + 1 ∧
    alistGet (executeSend initState Val.null).state.pending_requests (0 + 1)
      = some FutureState.pending :=
  execute_mutations_persist_on_send_failure initState Val.null rfl

/-- C8: an incoming event whose type has no registered handlers is a
no-op: the dispatch branch finds no entry for the type, invokes no
handler, leaves the state unchanged and surfaces no error (the loop
continues). -/
theorem unknown_event_type_noop (s : ClientState) (ev : EventData)
    (h : alistGet s.event_handlers ev.etype = none) :
    listenStep s (Frame.decoded (eventData ev)) = StepOut.next s [] := by
  simp [listenStep, eventData, h]

/-- Witness for C8: an event of an unregistered type arrives at a fresh
connected client and dispatch is a silent no-op. -/
theorem unknown_event_type_noop_witness :
    listenStep (connect initState)
        (Frame.decoded (eventData { etype := "pane_output", payload := Val.null }))
      = StepOut.next (connect initState) [] :=
  unknown_event_type_noop (connect initState)
    { etype := "pane_output", payload := Val.null } rfl

/-- C6: a call resolved by an error-response frame fails: the listener
stores the frame in the call's future, and execute, on awaking, sees
the error key and raises carrying exactly the remote error object (code
and message); it can never return a success value for such a frame. -/
theorem error_response_raises_rpc_error :
    (∀ (d : InData) (e : ErrInfo),
        d.error? = some e →
        executeFinish d = Except.error e ∧
        ∀ v, executeFinish d ≠ Except.ok v) ∧
    (∀ (s : ClientState) (d : InData) (n : Nat) (e : ErrInfo),
        d.id? = some n → d.error? = some e →
        alistGet s.pending_requests n = some FutureState.pending →
        listenStep s (Frame.decoded d) =
          StepOut.next
            { s with pending_requests :=
                alistSet s.pending_requests n (FutureState.done d) } [] ∧
        alistGet (alistSet s.pending_requests n (FutureState.done d)) n
          = some (FutureState.done d)) := by
  constructor
  · intro d e he
    refine ⟨by simp [executeFinish, he], ?_⟩
    intro v hv
    simp [executeFinish, he] at hv
  · intro s d n e hid _ hp
    exact ⟨by simp [listenStep, hid, hp], alistGet_set_self _ _ _⟩

/-- Witness for C6: call 1 is outstanding and an error response with
code 7 arrives; the call resolves with the error frame and execute
raises carrying code 7 and its message. -/
theorem error_response_raises_rpc_error_witness :
    executeFinish
        { id? := some 1, result? := none,
          error? := some { code := 7, message := "boom" }, event? := none }
      = Except.error { code := 7, message := "boom" } ∧
    ∀ v, executeFinish
        { id? := some 1, result? := none,
          error? := some { code := 7, message := "boom" }, event? := none }
      ≠ Except.ok v :=
  error_response_raises_rpc_error.1
    { id? := some 1, result? := none,
      error? := some { code := 7, message := "boom" }, event? := none }
    { code := 7, message := "boom" } rfl

/-- Concrete scenario for the id-invariant witness: counter at 2, calls
1 and 2 outstanding. -/
def c2State : ClientState :=
  { wsConnected := true, request_id := 2,
    pending_requests := [(1, FutureState.pending), (2, FutureState.pending)],
    event_handlers := [] }

/-- C2: correlation ids are unique and strictly increasing for one
connection lifetime.  The invariant — every id in the future table is
bounded by the counter and no id occurs twice — holds initially,
and every operation preserves it: execute allocates counter plus one,
which is strictly greater than every previously allocated id and absent
from the table, and reestablishes the invariant; any non-crashing
listener step preserves it (resolution rebinds an existing key); and
on_event, subscribe and connect leave the table and counter untouched. -/
theorem correlation_ids_strictly_increasing_invariant :
    idInvariant initState ∧
    (∀ (s : ClientState) (action : Val),
        idInvariant s →
        (executeSend s action).state.request_id = s.request_id + 1 ∧
        (∀ k ∈ s.pending_requests.map Prod.fst,
            k < (executeSend s action).state.request_id) ∧
        alistGet s.pending_requests (s.request_id + 1) = none ∧
        idInvariant (executeSend s action).state) ∧
    (∀ (s s1 : ClientState) (f : Frame) (sp : List (Handler × EventData)),
        idInvariant s → listenStep s f = StepOut.next s1 sp →
        idInvariant s1) ∧
    (∀ (s : ClientState) (t : String) (h : Handler),
        idInvariant s → idInvariant (on_event s t h)) ∧
    (∀ (s : ClientState) (events : List String),
        idInvariant s → idInvariant (subscribe s events).2) ∧
    (∀ (s : ClientState), idInvariant s → idInvariant (connect s)) := by
  refine ⟨by decide, ?_, ?_, ?_, ?_, ?_⟩
  · intro s action hinv
    obtain ⟨hb, hnd⟩ := hinv
    have hfresh : (s.request_id + 1) ∉ s.pending_requests.map Prod.fst := by
      intro hmem
      have := hb _ hmem
      omega
    have hkeys := alistSet_keys_of_not_mem s.pending_requests
      (s.request_id + 1) FutureState.pending hfresh
    refine ⟨rfl, ?_, ?_, ?_, ?_⟩
    · intro k hk
      have := hb k hk
      show k < s.request_id + 1
      omega
    · rw [alistGet_eq_none_iff]
      exact hfresh
    · intro k hk
      simp only [executeSend] at hk ⊢
      rw [hkeys] at hk
      rcases List.mem_append.mp hk with hk | hk
      · have := hb k hk
        omega
      · simp at hk
        omega
    · show (alistSet s.pending_requests (s.request_id + 1)
          FutureState.pending).map Prod.fst |>.Nodup
      rw [hkeys]
      simp [List.nodup_append, hnd, hfresh]
  · intro s s1 f sp hinv hstep
    cases f with
    | malformed => simp [listenStep] at hstep
    | decoded d =>
      simp only [listenStep] at hstep
      cases hd : d.id? with
      | some n =>
        rw [hd] at hstep
        cases hg : alistGet s.pending_requests n with
        | none =>
          simp only [hg] at hstep
          injection hstep with hs1 _
          rw [← hs1]
          exact hinv
        | some fs =>
          cases fs with
          | pending =>
            simp only [hg] at hstep
            injection hstep with hs1 _
            have hmem : n ∈ s.pending_requests.map Prod.fst := by
              by_contra hmem
              rw [← alistGet_eq_none_iff] at hmem
              rw [hmem] at hg
              cases hg
            have hkeys := alistSet_keys_of_mem s.pending_requests n
              (FutureState.done d) hmem
            rw [← hs1]
            obtain ⟨hb, hnd⟩ := hinv
            constructor
            · intro k hk
              simp only [hkeys] at hk
              exact hb k hk
            · simp only [hkeys]
              exact hnd
          | done d0 =>
            simp only [hg] at hstep
            cases hstep
      | none =>
        rw [hd] at hstep
        cases he : d.event? with
        | some ev =>
          cases hh : alistGet s.event_handlers ev.etype with
          | some hs =>
            simp only [he, hh] at hstep
            injection hstep with hs1 _
            rw [← hs1]
            exact hinv
          | none =>
            simp only [he, hh] at hstep
            injection hstep with hs1 _
            rw [← hs1]
            exact hinv
        | none =>
          simp only [he] at hstep
          injection hstep with hs1 _
          rw [← hs1]
          exact hinv
  · intro s t h hinv
    exact hinv
  · intro s events hinv
    exact hinv
  · intro s hinv
    exact hinv

/-- Witness for C2: with counter 2 and calls 1 and 2 outstanding,
execute allocates id 3: strictly above both outstanding ids, fresh in
the table, and the invariant still holds afterwards. -/
theorem correlation_ids_strictly_increasing_invariant_witness :
    (executeSend c2State Val.null).state.request_id = c2State.request_id + 1 ∧
    (∀ k ∈ c2State.pending_requests.map Prod.fst,
        k < (executeSend c2State Val.null).state.request_id) ∧
    alistGet c2State.pending_requests (c2State.request_id + 1) = none ∧
    idInvariant (executeSend c2State Val.null).state :=
  correlation_ids_strictly_increasing_invariant.2.1 c2State Val.null (by decide)

/-- C7: on_event appends each handler to its type entry, so registering
H1, H2, H3 yields exactly the list H1, H2, H3; dispatching one event of
that type hands the loop one spawned task per registered handler, in
registration order, with the event object — regardless of whether any
handler raises (the raises flags of H1, H2, H3 are arbitrary here), the
step never crashes and every handler, including those after a raising
one, is spawned; a raising handler fails only inside its own task. -/
theorem event_handlers_in_order_and_isolated :
    (∀ (s : ClientState) (t : String) (h : Handler),
        alistGet (on_event s t h).event_handlers t =
          some (((alistGet s.event_handlers t).getD []) ++ [h])) ∧
    (∀ (s : ClientState) (ev : EventData) (hs : List Handler),
        alistGet s.event_handlers ev.etype = some hs →
        listenStep s (Frame.decoded (eventData ev)) =
          StepOut.next s (hs.map (fun h => (h, ev)))) ∧
    (∀ (s : ClientState) (t : String) (ev : EventData) (h1 h2 h3 : Handler),
        alistGet s.event_handlers t = none →
        ev.etype = t →
        listenStep (on_event (on_event (on_event s t h1) t h2) t h3)
            (Frame.decoded (eventData ev)) =
          StepOut.next (on_event (on_event (on_event s t h1) t h2) t h3)
            [(h1, ev), (h2, ev), (h3, ev)]) ∧
    (∀ h : Handler,
        runHandlerTask h =
          if h.raises then TaskOutcome.handlerError else TaskOutcome.ok) := by
  have hreg : ∀ (s : ClientState) (t : String) (h : Handler),
      alistGet (on_event s t h).event_handlers t =
        some (((alistGet s.event_handlers t).getD []) ++ [h]) := by
    intro s t h
    simp [on_event, alistGet_set_self]
  have hdisp : ∀ (s : ClientState) (ev : EventData) (hs : List Handler),
      alistGet s.event_handlers ev.etype = some hs →
      listenStep s (Frame.decoded (eventData ev)) =
        StepOut.next s (hs.map (fun h => (h, ev))) := by
    intro s ev hs hg
    simp [listenStep, eventData, hg]
  refine ⟨hreg, hdisp, ?_, fun h => rfl⟩
  intro s t ev h1 h2 h3 hnone het
  have g1 := hreg s t h1
  rw [hnone] at g1
  simp only [Option.getD_none, List.nil_append] at g1
  have g2 := hreg (on_event s t h1) t h2
  rw [g1] at g2
  simp only [Option.getD_some] at g2
  have g3 := hreg (on_event (on_event s t h1) t h2) t h3
  rw [g2] at g3
  simp only [Option.getD_some] at g3
  have hfin := hdisp (on_event (on_event (on_event s t h1) t h2) t h3)
    ev [h1, h2, h3] (by rw [het]; simpa using g3)
  simpa using hfin

/-- Witness for C7: handlers 1, 2, 3 registered in order for type x,
the middle one raising; one event of type x spawns all three tasks in
registration order and the loop does not crash. -/
theorem event_handlers_in_order_and_isolated_witness :
    listenStep
        (on_event (on_event (on_event (connect initState) "x"
            { hid := 1, raises := false }) "x"
            { hid := 2, raises := true }) "x"
            { hid := 3, raises := false })
        (Frame.decoded (eventData { etype := "x", payload := Val.null }))
      = StepOut.next
          (on_event (on_event (on_event (connect initState) "x"
              { hid := 1, raises := false }) "x"
              { hid := 2, raises := true }) "x"
              { hid := 3, raises := false })
          [({ hid := 1, raises := false },
              { etype := "x", payload := Val.null }),
           ({ hid := 2, raises := true },
              { etype := "x", payload := Val.null }),
           ({ hid := 3, raises := false },
              { etype := "x", payload := Val.null })] :=
  event_handlers_in_order_and_isolated.2.2.1 (connect initState) "x"
    { etype := "x", payload := Val.null }
    { hid := 1, raises := false } { hid := 2, raises := true }
    { hid := 3, raises := false } rfl rfl

/-- Counterexample to C3 as stated: the connection drops while calls 3,
4 and 5 are outstanding, yet after the listener loop ends every one of
them is still pending — none is resolved at all, let alone with a
connection-closed error.  Indeed no code path of the source ever stores
an error in a future (FutureState has no error form because set_result
is the only write and _listen has no failure sweep). -/
theorem connection_drop_sweep_counterexample :
    alistGet (onConnectionClosed
        { wsConnected := true, request_id := 5,
          pending_requests := [(3, FutureState.pending),
            (4, FutureState.pending), (5, FutureState.pending)],
          event_handlers := [] }).pending_requests 3
      = some FutureState.pending ∧
    alistGet (onConnectionClosed
        { wsConnected := true, request_id := 5,
          pending_requests := [(3, FutureState.pending),
            (4, FutureState.pending), (5, FutureState.pending)],
          event_handlers := [] }).pending_requests 4
      = some FutureState.pending ∧
    alistGet (onConnectionClosed
        { wsConnected := true, request_id := 5,
          pending_requests := [(3, FutureState.pending),
            (4, FutureState.pending), (5, FutureState.pending)],
          event_handlers := [] }).pending_requests 5
      = some FutureState.pending :=
  ⟨rfl, rfl, rfl⟩

/-- C3 amended: when the connection drops, the listener coroutine simply
returns — the client state is untouched, every outstanding pending call
stays pending forever (there is no failure sweep), and no response for
those ids is processed afterwards because the loop has ended. -/
theorem connection_drop_leaves_calls_pending (s : ClientState) (n : Nat)
    (h : alistGet s.pending_requests n = some FutureState.pending) :
    onConnectionClosed s = s ∧
    alistGet (onConnectionClosed s).pending_requests n
      = some FutureState.pending :=
  ⟨rfl, h⟩

/-- Witness for the amended C3: call 3 outstanding at the drop, still
pending afterwards. -/
theorem connection_drop_leaves_calls_pending_witness :
    onConnectionClosed
        { wsConnected := true, request_id := 3,
          pending_requests := [(3, FutureState.pending)],
          event_handlers := [] }
      = { wsConnected := true, request_id := 3,
          pending_requests := [(3, FutureState.pending)],
          event_handlers := [] } ∧
    alistGet (onConnectionClosed
        { wsConnected := true, request_id := 3,
          pending_requests := [(3, FutureState.pending)],
          event_handlers := [] }).pending_requests 3
      = some FutureState.pending :=
  connection_drop_leaves_calls_pending
    { wsConnected := true, request_id := 3,
      pending_requests := [(3, FutureState.pending)],
      event_handlers := [] } 3 rfl

/-- First response frame of the duplicate scenario. -/
def c4RespA : InData :=
  { id? := some 1, result? := some (Val.num 7),
    error? := none, event? := none }

/-- Duplicate response frame carrying the same id 1. -/
def c4RespB : InData :=
  { id? := some 1, result? := some (Val.num 8),
    error? := none, event? := none }

/-- Counterexample to C4 as stated: call 1 is resolved by a first
response, then a duplicate frame for the same id arrives.  Because
resolved entries are never removed from pending_requests, the duplicate
finds the done future, set_result raises InvalidStateError, and the
listener loop crashes instead of discarding the frame and continuing.
The first-written outcome is preserved. -/
theorem duplicate_response_crash_counterexample :
    (runListen
        { wsConnected := true, request_id := 1,
          pending_requests := [(1, FutureState.pending)],
          event_handlers := [] }
        [Frame.decoded c4RespA, Frame.decoded c4RespB]).crash
      = some PyErr.invalidStateError ∧
    alistGet (runListen
        { wsConnected := true, request_id := 1,
          pending_requests := [(1, FutureState.pending)],
          event_handlers := [] }
        [Frame.decoded c4RespA, Frame.decoded c4RespB]).final.pending_requests 1
      = some (FutureState.done c4RespA) :=
  ⟨rfl, rfl⟩

/-- C4 amended: a frame whose id has no entry at all in
pending_requests is silently discarded (nothing is logged) and the loop
continues with the state unchanged; but because resolved entries are
never deleted, a frame whose id matches an already-resolved call calls
set_result on a done future, which raises InvalidStateError and
terminates the listener loop — the previously written outcome is left
unchanged. -/
theorem unknown_id_dropped_duplicate_crashes :
    (∀ (s : ClientState) (d : InData) (n : Nat),
        d.id? = some n →
        alistGet s.pending_requests n = none →
        listenStep s (Frame.decoded d) = StepOut.next s []) ∧
    (∀ (s : ClientState) (d d0 : InData) (n : Nat),
        d.id? = some n →
        alistGet s.pending_requests n = some (FutureState.done d0) →
        listenStep s (Frame.decoded d) =
          StepOut.crashed s PyErr.invalidStateError ∧
        alistGet s.pending_requests n = some (FutureState.done d0)) := by
  constructor
  · intro s d n hid hg
    simp [listenStep, hid, hg]
  · intro s d d0 n hid hg
    exact ⟨by simp [listenStep, hid, hg], hg⟩

/-- Witness for the amended C4: a response with the never-allocated id 9
arrives at a client with call 1 outstanding and is silently dropped;
a duplicate for the already-resolved id 1 crashes the loop. -/
theorem unknown_id_dropped_duplicate_crashes_witness :
    listenStep
        { wsConnected := true, request_id := 1,
          pending_requests := [(1, FutureState.pending)],
          event_handlers := [] }
        (Frame.decoded { id? := some 9, result? := some (Val.num 7),
                         error? := none, event? := none })
      = StepOut.next
          { wsConnected := true, request_id := 1,
            pending_requests := [(1, FutureState.pending)],
            event_handlers := [] } [] ∧
    listenStep
        { wsConnected := true, request_id := 1,
          pending_requests := [(1, FutureState.done c4RespA)],
          event_handlers := [] }
        (Frame.decoded c4RespB)
      = StepOut.crashed
          { wsConnected := true, request_id := 1,
            pending_requests := [(1, FutureState.done c4RespA)],
            event_handlers := [] } PyErr.invalidStateError :=
  ⟨unknown_id_dropped_duplicate_crashes.1
      { wsConnected := true, request_id := 1,
        pending_requests := [(1, FutureState.pending)],
        event_handlers := [] }
      { id? := some 9, result? := some (Val.num 7),
        error? := none, event? := none } 9 rfl rfl,
    (unknown_id_dropped_duplicate_crashes.2
      { wsConnected := true, request_id := 1,
        pending_requests := [(1, FutureState.done c4RespA)],
        event_handlers := [] }
      c4RespB c4RespA 1 rfl rfl).1⟩

/-- A well-formed response for call 1, used after a malformed frame. -/
def c5Resp : InData :=
  { id? := some 1, result? := some (Val.num 3),
    error? := none, event? := none }

/-- Counterexample to C5 as stated: a frame that fails to decode is
followed by a perfectly good response for the outstanding call 1.  The
json decode failure is an unhandled exception: the listener loop
crashes, the good frame is never processed, and call 1 stays pending —
the loop does not log and continue. -/
theorem decode_failure_crash_counterexample :
    (runListen
        { wsConnected := true, request_id := 1,
          pending_requests := [(1, FutureState.pending)],
          event_handlers := [] }
        [Frame.malformed, Frame.decoded c5Resp]).crash
      = some PyErr.jsonDecodeError ∧
    (runListen
        { wsConnected := true, request_id := 1,
          pending_requests := [(1, FutureState.pending)],
          event_handlers := [] }
        [Frame.malformed, Frame.decoded c5Resp]).unprocessed
      = [Frame.decoded c5Resp] ∧
    alistGet (runListen
        { wsConnected := true, request_id := 1,
          pending_requests := [(1, FutureState.pending)],
          event_handlers := [] }
        [Frame.malformed, Frame.decoded c5Resp]).final.pending_requests 1
      = some FutureState.pending :=
  ⟨rfl, rfl, rfl⟩

/-- C5 amended: a frame that fails to decode raises an unhandled
exception that terminates the listener loop immediately, leaving all
subsequent frames unprocessed (nothing is logged); a decoded frame
carrying neither an id key nor an event key is silently dropped and the
loop continues with the state unchanged. -/
theorem decode_failure_crashes_unroutable_dropped :
    (∀ (s : ClientState) (rest : List Frame),
        runListen s (Frame.malformed :: rest) =
          { final := s, spawned := [],
            crash := some PyErr.jsonDecodeError, unprocessed := rest }) ∧
    (∀ (s : ClientState) (d : InData),
        d.id? = none → d.event? = none →
        listenStep s (Frame.decoded d) = StepOut.next s []) := by
  constructor
  · intro s rest
    rfl
  · intro s d hid hev
    simp [listenStep, hid, hev]

/-- Witness for the amended C5: a malformed frame crashes a fresh
connected listener at once, and a decoded frame with neither key is
dropped silently. -/
theorem decode_failure_crashes_unroutable_dropped_witness :
    runListen (connect initState) [Frame.malformed] =
      { final := connect initState, spawned := [],
        crash := some PyErr.jsonDecodeError, unprocessed := [] } ∧
    listenStep (connect initState)
        (Frame.decoded { id? := none, result? := some (Val.num 1),
                         error? := none, event? := none })
      = StepOut.next (connect initState) [] :=
  ⟨decode_failure_crashes_unroutable_dropped.1 (connect initState) [],
    decode_failure_crashes_unroutable_dropped.2 (connect initState)
      { id? := none, result? := some (Val.num 1),
        error? := none, event? := none } rfl rfl⟩

end Orchflow
